import Mathlib

/-!
Verification of the real-time audio transcription client (Ebin746/realTime).

The repository contains two front-end components:
* `src/audio-transcription/src/App.jsx` — a reconnecting WebSocket streaming
  client (`RealtimeTranscription`): connection management with a guard flag
  and a fixed 3000 ms reconnect timer, a capture pipeline converting Float32
  audio frames to signed 16-bit PCM, and a message dispatcher.
* `src/unnamed/part_000` — an upload variant (`AudioTranscription`) that
  records a compressed blob and POSTs it, rejecting blobs below 1000 bytes.

We embed the state and the event handlers as pure Lean functions over an
explicit application state.  JavaScript numbers appearing here are exact:
the Float32→Int16 conversion multiplies a 24-bit-mantissa value by 32768 or
32767, which is exact in double precision, so we model samples as rationals.
-/

namespace RealTime

/-! ## Sample conversion (`App.jsx` lines 158–163) -/

/-- Truncation toward zero, as JavaScript ToInteger does on a number
(`Int16Array` element assignment truncates the fractional part). -/
def truncToInt (q : ℚ) : ℤ :=
  if q < 0 then ⌈q⌉ else ⌊q⌋

/-- JavaScript `ToInt16`: truncate toward zero and wrap into
[-32768, 32767] modulo 2^16, as `Int16Array` element assignment does. -/
def toInt16 (q : ℚ) : ℤ :=
  (truncToInt q + 32768) % 65536 - 32768

/-- Mirrors `App.jsx` line 161: `const s = Math.max(-1, Math.min(1, inputData[i]))`. -/
def clampSample (x : ℚ) : ℚ :=
  max (-1) (min 1 x)

/-- Mirrors `App.jsx` line 162: `s < 0 ? s * 0x8000 : s * 0x7FFF`
(`0x8000 = 32768`, `0x7FFF = 32767`). -/
def scaleSample (s : ℚ) : ℚ :=
  if s < 0 then s * 32768 else s * 32767

/-- Mirrors `App.jsx` lines 161–162: clamp to [-1, 1], scale asymmetrically, store
into an `Int16Array` slot.  The multiplications are exact in JavaScript
doubles (24-bit mantissa × 15/16-bit constant), so the rational model is
exact. -/
def floatToInt16 (x : ℚ) : ℤ :=
  toInt16 (scaleSample (clampSample x))

/-! ## The streaming client state machine (`App.jsx`, `RealtimeTranscription`)

The component is single-threaded and event-driven; each browser callback is
embedded as a pure function on an explicit application state.  React state
setters and the mutable refs that the code keeps in sync (`isRecording` and
`isRecordingRef`) are modelled as single fields.  `setStatus` calls are
additionally journalled in `statusLog` so that a status surfaced and later
overwritten inside the same event turn remains observable.  Counters record
externally observable effects: WebSocket constructions, reconnect timers
scheduled, microphone acquisitions, media-track stops, and the ordered list
of messages sent over the socket. -/

/-- WebSocket.CONNECTING. -/
def WS_CONNECTING : Nat := 0

/-- WebSocket.OPEN. -/
def WS_OPEN : Nat := 1

/-- WebSocket.CLOSED. -/
def WS_CLOSED : Nat := 3

/-- A WebSocket object: its readyState and a creation index
distinguishing distinct underlying connection objects. -/
structure WS where
  readyState : Nat
  id : Nat
deriving DecidableEq

/-- A transcript entry: `{ text, timestamp }` (`App.jsx` lines 56–59). -/
structure Entry where
  text : String
  timestamp : String
deriving DecidableEq

/-- A client→server message on the socket: the start and stop JSON control
texts and the raw Int16 PCM frames. -/
inductive Msg where
  | start
  | stop
  | audio (samples : List ℤ)
deriving DecidableEq

/-- An incoming server event as seen after `JSON.parse`: the three
recognised shapes, a parseable message of unrecognised type, and an
unparseable payload (`JSON.parse` throws). -/
inductive ServerMsg where
  | transcription (text : String)
  | error (message : String)
  | status (message : String)
  | unknown
  | malformed
deriving DecidableEq

/-- The state of the `RealtimeTranscription` component. -/
structure AppState where
  /-- Mirrors `wsRef.current`. -/
  ws : Option WS
  /-- Mirrors `isConnectingRef.current`. -/
  isConnecting : Bool
  /-- Mirrors `isRecordingRef.current` and the `isRecording` React state
  (the code always writes both together). -/
  isRecording : Bool
  /-- Mirrors `wsConnected` React state. -/
  wsConnected : Bool
  /-- Mirrors `status` React state (the last `setStatus` wins). -/
  status : String
  /-- Journal of every `setStatus` call, in order. -/
  statusLog : List String
  /-- Mirrors `transcriptions` React state. -/
  transcriptions : List Entry
  /-- Mirrors `reconnectTimeoutRef.current`: the absolute time at which a pending
  reconnect timer fires, if one is pending. -/
  reconnectTimer : Option Nat
  /-- Mirrors `streamRef.current`: the acquired microphone stream handle. -/
  stream : Option Nat
  /-- Mirrors `audioContextRef.current`. -/
  audioCtx : Option Nat
  /-- Mirrors `processorRef.current`. -/
  processor : Option Nat
  /-- Current time in milliseconds. -/
  now : Nat
  /-- Number of `new WebSocket(...)` constructions so far. -/
  wsCreated : Nat
  /-- Number of reconnect timers scheduled via `setTimeout` so far. -/
  timersSet : Nat
  /-- Number of successful `getUserMedia` acquisitions so far. -/
  micAcquisitions : Nat
  /-- Number of times the stream tracks were stopped via `track.stop()`. -/
  tracksStopped : Nat
  /-- All messages sent over the socket, in send order. -/
  sent : List Msg
deriving DecidableEq

/-- Mirrors `setStatus(m)`: record the new status and journal the call. -/
def setStatus (m : String) (s : AppState) : AppState :=
  { s with status := m, statusLog := s.statusLog ++ [m] }

/-- Mirrors `wsRef.current && wsRef.current.readyState === WebSocket.OPEN`. -/
def wsIsOpen (s : AppState) : Bool :=
  match s.ws with
  | some w => w.readyState == WS_OPEN
  | none => false

/-- Mirrors `connectWebSocket` (`App.jsx` lines 25–106).  `ctorOk` tells whether the
`new WebSocket(...)` construction succeeds or throws synchronously (the
`catch` at lines 101–105).  On entry the guard returns early when an attempt
is in flight or the socket is open; otherwise any prior socket is closed and
discarded, the flag is set, and a fresh socket object is created. -/
def connectWebSocket (ctorOk : Bool) (s : AppState) : AppState :=
  if s.isConnecting || wsIsOpen s then s
  else
    let s1 := { s with isConnecting := true }
    let s2 := { s1 with ws := none }
    if ctorOk then
      { s2 with ws := some { readyState := WS_CONNECTING, id := s2.wsCreated },
                wsCreated := s2.wsCreated + 1 }
    else
      setStatus "Failed to connect" { s2 with isConnecting := false }

/-- Mirrors `stopRecording` (`App.jsx` lines 184–210): clear the recording flags,
tear down processor, audio context and stream (the `if` guards in the source
only avoid a null dereference), send the stop control message when the
socket is still open, and set the final status. -/
def stopRecording (s : AppState) : AppState :=
  let s1 := { s with isRecording := false }
  let s2 := { s1 with processor := none }
  let s3 := { s2 with audioCtx := none }
  let s4 := match s3.stream with
    | some _ => { s3 with stream := none, tracksStopped := s3.tracksStopped + 1 }
    | none => s3
  let s5 := if wsIsOpen s4 then { s4 with sent := s4.sent ++ [Msg.stop] } else s4
  setStatus "Recording stopped" s5

/-- Mirrors `ws.onopen` (`App.jsx` lines 43–48).  The browser moves the socket to
OPEN before firing the handler. -/
def wsOnOpen (s : AppState) : AppState :=
  let s0 := { s with ws := s.ws.map (fun w : WS => { w with readyState := WS_OPEN }) }
  setStatus "Connected to server" { s0 with isConnecting := false, wsConnected := true }

/-- Mirrors `ws.onerror` (`App.jsx` lines 71–75). -/
def wsOnError (s : AppState) : AppState :=
  { setStatus "Connection error" s with isConnecting := false }

/-- Mirrors `ws.onclose` (`App.jsx` lines 77–98).  The browser moves the socket to
CLOSED before firing the handler; the handler clears the in-flight flag,
marks the connection closed, surfaces "Disconnected", stops any active
recording, clears a pending reconnect timer and schedules a new reconnect
3000 ms in the future. -/
def wsOnClose (s : AppState) : AppState :=
  let s0 := { s with ws := s.ws.map (fun w : WS => { w with readyState := WS_CLOSED }) }
  let s1 := { s0 with isConnecting := false, wsConnected := false }
  let s2 := setStatus "Disconnected" s1
  let s3 := if s2.isRecording then stopRecording s2 else s2
  let s4 := { s3 with reconnectTimer := none }
  { s4 with reconnectTimer := some (s4.now + 3000), timersSet := s4.timersSet + 1 }

/-- Mirrors `ws.onmessage` (`App.jsx` lines 50–69): dispatch on `data.type`;
transcriptions are appended with a wall-clock timestamp `ts`; error and
status messages update the status line; unknown types fall through all
branches; unparseable payloads are caught, logged and dropped. -/
def wsOnMessage (m : ServerMsg) (ts : String) (s : AppState) : AppState :=
  match m with
  | .transcription text =>
      { s with transcriptions := s.transcriptions ++ [{ text := text, timestamp := ts }] }
  | .error message => setStatus ("Error: " ++ message) s
  | .status message => setStatus message s
  | .unknown => s
  | .malformed => s

/-- Mirrors `startRecording` (`App.jsx` lines 108–182).  `micErr = some e` means
`getUserMedia` rejects with message `e`; `graphErr = some e` means the audio
graph construction (`new AudioContext` onwards) throws with message `e`.
Both failures land in the `catch` at lines 176–181, which only sets the
status and clears the recording flags. -/
def startRecording (micErr graphErr : Option String) (s : AppState) : AppState :=
  if !(wsIsOpen s) then
    setStatus "WebSocket not connected. Please wait..." s
  else
    match micErr with
    | some e =>
        { setStatus ("Microphone access denied: " ++ e) s with isRecording := false }
    | none =>
      let acqId := s.micAcquisitions
      let s1 := { s with stream := some acqId, micAcquisitions := s.micAcquisitions + 1 }
      match graphErr with
      | some e =>
          { setStatus ("Microphone access denied: " ++ e) s1 with isRecording := false }
      | none =>
        let s2 := { s1 with audioCtx := some acqId, processor := some acqId }
        let s3 := { s2 with isRecording := true }
        let s4 := setStatus "Recording... speak now!" s3
        let s5 := { s4 with transcriptions := [] }
        { s5 with sent := s5.sent ++ [Msg.start] }

/-- Mirrors `processor.onaudioprocess` (`App.jsx` lines 150–171): drop the frame
unless recording is active and the socket is open; otherwise convert every
Float32 sample and send the Int16 block. -/
def onAudioProcess (frame : List ℚ) (s : AppState) : AppState :=
  if !s.isRecording || !(wsIsOpen s) then s
  else { s with sent := s.sent ++ [Msg.audio (frame.map floatToInt16)] }

/-- Mirrors `cleanup` (`App.jsx` lines 212–226): cancel a pending reconnect timer,
stop an active recording, close and discard the socket. -/
def cleanup (s : AppState) : AppState :=
  let s1 := { s with reconnectTimer := none }
  let s2 := if s1.isRecording then stopRecording s1 else s1
  { s2 with ws := none }

/-- Firing of the reconnect timer scheduled at `App.jsx` lines 94–97: only a
pending timer whose deadline has been reached runs, and it calls
`connectWebSocket`. -/
def fireReconnect (ctorOk : Bool) (s : AppState) : AppState :=
  match s.reconnectTimer with
  | some t =>
      if t ≤ s.now then connectWebSocket ctorOk { s with reconnectTimer := none } else s
  | none => s

/-- Advance the clock by `d` milliseconds. -/
def tick (d : Nat) (s : AppState) : AppState :=
  { s with now := s.now + d }

/-- The component initial state: all refs null, all flags false
(`App.jsx` lines 4–15). -/
def initState : AppState :=
  { ws := none, isConnecting := false, isRecording := false, wsConnected := false,
    status := "", statusLog := [], transcriptions := [], reconnectTimer := none,
    stream := none, audioCtx := none, processor := none, now := 0,
    wsCreated := 0, timersSet := 0, micAcquisitions := 0, tracksStopped := 0,
    sent := [] }

/-- A reachable state with an open connection and no active capture session:
the initial state after a successful connect and its open event. -/
def openIdle : AppState :=
  wsOnOpen (connectWebSocket true initState)

/-- A reachable state with an open connection and an active capture session. -/
def recState : AppState :=
  startRecording none none openIdle

/-! ## The upload variant (`src/unnamed/part_000`, `AudioTranscription`) -/

/-- The `status` React state of the upload component: `{ message, type }`. -/
structure UploadStatus where
  message : String
  type : String
deriving DecidableEq

/-- State of the `AudioTranscription` upload component. -/
structure UploadState where
  /-- The `status` React state. -/
  uStatus : UploadStatus
  /-- The `transcription` React state. -/
  transcription : String
  /-- Mirrors `audioChunksRef.current`, as the byte sizes of the recorded chunks
  (`ondataavailable` pushes only chunks with `size > 0`); the blob built in
  `uploadAudio` has the sum of these as its size. -/
  audioChunks : List Nat
  /-- Number of `fetch` network calls issued so far. -/
  fetchCalls : Nat
deriving DecidableEq

/-- Outcome of the `fetch` POST to `/transcribe`, as the code observes it. -/
inductive FetchRes where
  /-- The network call itself rejects with message `msg`. -/
  | netError (msg : String)
  /-- Mirrors `res.ok` is false: HTTP status `code`, response body `body`. -/
  | httpError (code : Nat) (body : String)
  /-- A 2xx response whose JSON body carries the optional `error` and
  `text` fields. -/
  | json (error : Option String) (text : Option String)
deriving DecidableEq

/-- The `catch` block of `uploadAudio` (`part_000` lines 122–124):
`setStatus` with the error shape used there. -/
def uploadError (m : String) (s : UploadState) : UploadState :=
  { s with uStatus := { message := "❌ Error: " ++ m, type := "error" } }

/-- Mirrors `uploadAudio` (`part_000` lines 82–128): build the blob from the
recorded chunks; throw (caught below) when it is under 1000 bytes; otherwise
POST it and interpret the response, treating a non-2xx status or an `error`
field as failure.  JavaScript truthiness of `data.error` and `data.text`
(empty string is falsy) is modelled explicitly.  The `finally` block always
clears the chunk buffer. -/
def uploadAudio (resp : FetchRes) (s : UploadState) : UploadState :=
  let blobSize := s.audioChunks.sum
  let s9 :=
    if blobSize < 1000 then
      uploadError "Recording too short or failed. Please speak for at least 2-3 seconds." s
    else
      let s1 := { s with fetchCalls := s.fetchCalls + 1 }
      match resp with
      | .netError m => uploadError m s1
      | .httpError code body =>
          uploadError ("Server error (" ++ toString code ++ "): " ++ body) s1
      | .json err text =>
          if err.getD "" ≠ "" then uploadError (err.getD "") s1
          else
            { s1 with
              uStatus := { message := "✅ Transcription complete!", type := "success" },
              transcription :=
                if text.getD "" = "" then "(No speech detected)" else text.getD "" }
  { s9 with audioChunks := [] }

/-- A concrete upload state holding a recording of 700 bytes in two chunks. -/
def shortUpload : UploadState :=
  { uStatus := { message := "", type := "" }, transcription := "",
    audioChunks := [300, 400], fetchCalls := 0 }

/-! ## Sample-conversion lemmas and claim C1 -/

theorem truncToInt_mono {q r : ℚ} (h : q ≤ r) : truncToInt q ≤ truncToInt r := by
  unfold truncToInt
  by_cases hq : q < 0 <;> by_cases hr : r < 0 <;> simp [hq, hr]
  · exact Int.ceil_le_ceil h
  · calc ⌈q⌉ ≤ ⌈(0 : ℚ)⌉ := Int.ceil_le_ceil hq.le
      _ = 0 := by simp
      _ ≤ ⌊r⌋ := Int.le_floor.mpr (by push_neg at hr; exact_mod_cast hr)
  · exact absurd (lt_of_le_of_lt h hr) hq
  · exact Int.floor_le_floor h

theorem truncToInt_le {q : ℚ} {n : ℤ} (h : q ≤ (n : ℚ)) (hn : 0 ≤ n) :
    truncToInt q ≤ n := by
  unfold truncToInt
  by_cases hq : q < 0
  · rw [if_pos hq]
    calc ⌈q⌉ ≤ ⌈(0 : ℚ)⌉ := Int.ceil_le_ceil hq.le
      _ = 0 := by simp
      _ ≤ n := hn
  · rw [if_neg hq]
    exact Int.floor_le_floor h |>.trans (by simp)

theorem le_truncToInt {q : ℚ} {n : ℤ} (h : (n : ℚ) ≤ q) (hn : n ≤ 0) :
    n ≤ truncToInt q := by
  unfold truncToInt
  by_cases hq : q < 0
  · rw [if_pos hq]
    have hc : (n : ℚ) ≤ (⌈q⌉ : ℚ) := h.trans (Int.le_ceil q)
    exact_mod_cast hc
  · rw [if_neg hq]
    calc n ≤ 0 := hn
      _ ≤ ⌊q⌋ := Int.le_floor.mpr (by exact_mod_cast not_lt.mp hq)

theorem clampSample_le_one (x : ℚ) : clampSample x ≤ 1 := by
  unfold clampSample
  exact max_le (by norm_num) (min_le_left 1 x)

theorem neg_one_le_clampSample (x : ℚ) : -1 ≤ clampSample x :=
  le_max_left _ _

theorem clampSample_mono {x y : ℚ} (h : x ≤ y) : clampSample x ≤ clampSample y :=
  max_le_max le_rfl (min_le_min le_rfl h)

theorem scaleSample_mono {s t : ℚ} (h : s ≤ t) : scaleSample s ≤ scaleSample t := by
  unfold scaleSample
  by_cases hs : s < 0 <;> by_cases ht : t < 0 <;>
    simp only [hs, ht, if_pos, if_neg, if_true, if_false]
  · nlinarith
  · push_neg at ht; nlinarith
  · push_neg at hs; nlinarith
  · push_neg at hs; nlinarith

theorem neg_le_scaleSample {s : ℚ} (h : -1 ≤ s) : -32768 ≤ scaleSample s := by
  unfold scaleSample
  by_cases hs : s < 0 <;> simp only [hs, if_true, if_false, if_pos, if_neg]
  · nlinarith
  · push_neg at hs; nlinarith

theorem scaleSample_le {s : ℚ} (h : s ≤ 1) : scaleSample s ≤ 32767 := by
  unfold scaleSample
  by_cases hs : s < 0 <;> simp only [hs, if_true, if_false, if_pos, if_neg]
  · nlinarith
  · push_neg at hs; nlinarith

theorem toInt16_eq_truncToInt {q : ℚ} (h1 : -32768 ≤ q) (h2 : q ≤ 32767) :
    toInt16 q = truncToInt q := by
  have t1 : -32768 ≤ truncToInt q :=
    le_truncToInt (by exact_mod_cast h1) (by norm_num)
  have t2 : truncToInt q ≤ 32767 :=
    truncToInt_le (by exact_mod_cast h2) (by norm_num)
  unfold toInt16
  have hmod : (truncToInt q + 32768) % 65536 = truncToInt q + 32768 :=
    Int.emod_eq_of_lt (by omega) (by omega)
  omega

theorem floatToInt16_eq_trunc (x : ℚ) :
    floatToInt16 x = truncToInt (scaleSample (clampSample x)) := by
  unfold floatToInt16
  exact toInt16_eq_truncToInt
    (neg_le_scaleSample (neg_one_le_clampSample x))
    (scaleSample_le (clampSample_le_one x))

/-- C1: the Float32→Int16 conversion clamps each sample to [-1, 1] and
scales negative samples by 32768 and non-negative ones by 32767; on [-1, 1]
it is monotone, its output lies within [-32768, 32767], input -1 maps to
-32768 and input 1 maps to 32767. -/
theorem C1_sample_conversion :
    (∀ x y : ℚ, -1 ≤ x → x ≤ y → y ≤ 1 → floatToInt16 x ≤ floatToInt16 y) ∧
    (∀ x : ℚ, -1 ≤ x → x ≤ 1 →
      -32768 ≤ floatToInt16 x ∧ floatToInt16 x ≤ 32767) ∧
    floatToInt16 (-1) = -32768 ∧
    floatToInt16 1 = 32767 := by
  refine ⟨fun x y _ hxy _ => ?_, fun x _ _ => ⟨?_, ?_⟩, ?_, ?_⟩
  · rw [floatToInt16_eq_trunc, floatToInt16_eq_trunc]
    exact truncToInt_mono (scaleSample_mono (clampSample_mono hxy))
  · rw [floatToInt16_eq_trunc]
    exact le_truncToInt
      (by exact_mod_cast neg_le_scaleSample (neg_one_le_clampSample x))
      (by norm_num)
  · rw [floatToInt16_eq_trunc]
    exact truncToInt_le
      (by exact_mod_cast scaleSample_le (clampSample_le_one x))
      (by norm_num)
  · norm_num [floatToInt16, toInt16, truncToInt, clampSample, scaleSample,
      Int.ceil_neg, Int.floor_neg]
  · norm_num [floatToInt16, toInt16, truncToInt, clampSample, scaleSample,
      Int.ceil_neg, Int.floor_neg]

/-- C1 witness: the monotonicity and range parts instantiated at -1/2 and 1/2. -/
theorem C1_sample_conversion_witness :
    ((-1 : ℚ) ≤ -1/2 ∧ (-1/2 : ℚ) ≤ 1/2 ∧ (1/2 : ℚ) ≤ 1) ∧
    floatToInt16 (-1/2) ≤ floatToInt16 (1/2) ∧
    -32768 ≤ floatToInt16 (1/2) ∧ floatToInt16 (1/2) ≤ 32767 :=
  ⟨⟨by norm_num, by norm_num, by norm_num⟩,
   C1_sample_conversion.1 (-1/2) (1/2) (by norm_num) (by norm_num) (by norm_num),
   (C1_sample_conversion.2.1 (1/2) (by norm_num) (by norm_num)).1,
   (C1_sample_conversion.2.1 (1/2) (by norm_num) (by norm_num)).2⟩

/-! ## State-machine lemmas -/

theorem stopRecording_fields (s : AppState) :
    (stopRecording s).isRecording = false ∧
    (stopRecording s).processor = none ∧
    (stopRecording s).audioCtx = none ∧
    (stopRecording s).stream = none ∧
    (stopRecording s).ws = s.ws ∧
    (stopRecording s).isConnecting = s.isConnecting ∧
    (stopRecording s).wsConnected = s.wsConnected ∧
    (stopRecording s).reconnectTimer = s.reconnectTimer ∧
    (stopRecording s).now = s.now ∧
    (stopRecording s).wsCreated = s.wsCreated ∧
    (stopRecording s).timersSet = s.timersSet ∧
    (stopRecording s).transcriptions = s.transcriptions ∧
    (stopRecording s).micAcquisitions = s.micAcquisitions ∧
    (stopRecording s).status = "Recording stopped" ∧
    (stopRecording s).statusLog = s.statusLog ++ ["Recording stopped"] ∧
    (stopRecording s).sent = (if wsIsOpen s then s.sent ++ [Msg.stop] else s.sent) ∧
    (stopRecording s).tracksStopped =
      s.tracksStopped + (if s.stream.isSome then 1 else 0) := by
  cases hstream : s.stream <;> cases hw : s.ws <;>
    simp [stopRecording, setStatus, wsIsOpen, hstream, hw] <;>
    split_ifs <;> simp

/-- C2: `connect()` is a no-op when an attempt is in flight or the socket is
open; two immediate calls from a connectable state create exactly one
underlying connection object. -/
theorem C2_connect_guard :
    (∀ (s : AppState) (ok : Bool), s.isConnecting = true ∨ wsIsOpen s = true →
      connectWebSocket ok s = s) ∧
    (∀ s : AppState, s.isConnecting = false → wsIsOpen s = false →
      connectWebSocket true (connectWebSocket true s) = connectWebSocket true s ∧
      (connectWebSocket true s).wsCreated = s.wsCreated + 1) := by
  constructor
  · rintro s ok (h | h) <;> simp [connectWebSocket, h]
  · intro s h1 h2
    constructor
    · simp [connectWebSocket, h1, h2]
    · simp [connectWebSocket, h1, h2]

/-- C2 witness: the guard and double-call parts at concrete states. -/
theorem C2_connect_guard_witness :
    connectWebSocket true openIdle = openIdle ∧
    connectWebSocket true (connectWebSocket true initState) =
      connectWebSocket true initState ∧
    (connectWebSocket true initState).wsCreated = initState.wsCreated + 1 :=
  ⟨C2_connect_guard.1 openIdle true (Or.inr (by decide)),
   (C2_connect_guard.2 initState (by decide) (by decide)).1,
   (C2_connect_guard.2 initState (by decide) (by decide)).2⟩

/-- C5: `start()` while the connection is not open sets only the waiting
status: no microphone acquisition happens and nothing else changes. -/
theorem C5_start_requires_open (s : AppState) (micErr graphErr : Option String)
    (h : wsIsOpen s = false) :
    startRecording micErr graphErr s =
      setStatus "WebSocket not connected. Please wait..." s ∧
    (startRecording micErr graphErr s).micAcquisitions = s.micAcquisitions ∧
    (startRecording micErr graphErr s).stream = s.stream ∧
    (startRecording micErr graphErr s).isRecording = s.isRecording ∧
    (startRecording micErr graphErr s).status =
      "WebSocket not connected. Please wait..." := by
  refine ⟨?_, ?_, ?_, ?_, ?_⟩ <;> simp [startRecording, setStatus, h]

/-- C5 witness: `start()` on the freshly mounted, not yet connected state. -/
theorem C5_start_requires_open_witness :
    wsIsOpen initState = false ∧
    startRecording none none initState =
      setStatus "WebSocket not connected. Please wait..." initState ∧
    (startRecording none none initState).micAcquisitions =
      initState.micAcquisitions :=
  ⟨by decide, (C5_start_requires_open initState none none (by decide)).1,
   (C5_start_requires_open initState none none (by decide)).2.1⟩

/-- C9: when the audio-graph construction throws after the microphone
stream was acquired, the catch path clears the recording flags and reports
the error, but the acquired stream handle is retained and its tracks are
not stopped. -/
theorem C9_start_failure_retains_stream (s : AppState) (e : String)
    (h : wsIsOpen s = true) :
    (startRecording none (some e) s).isRecording = false ∧
    (startRecording none (some e) s).status = "Microphone access denied: " ++ e ∧
    (startRecording none (some e) s).stream = some s.micAcquisitions ∧
    (startRecording none (some e) s).micAcquisitions = s.micAcquisitions + 1 ∧
    (startRecording none (some e) s).tracksStopped = s.tracksStopped := by
  refine ⟨?_, ?_, ?_, ?_, ?_⟩ <;> simp [startRecording, setStatus, h]

/-- C9 witness: a failing graph construction on the connected idle state. -/
theorem C9_start_failure_retains_stream_witness :
    wsIsOpen openIdle = true ∧
    (startRecording none (some "ctx fail") openIdle).stream = some 0 ∧
    (startRecording none (some "ctx fail") openIdle).tracksStopped = 0 ∧
    (startRecording none (some "ctx fail") openIdle).isRecording = false :=
  ⟨by decide,
   (C9_start_failure_retains_stream openIdle "ctx fail" (by decide)).2.2.1,
   (C9_start_failure_retains_stream openIdle "ctx fail" (by decide)).2.2.2.2,
   (C9_start_failure_retains_stream openIdle "ctx fail" (by decide)).1⟩

theorem wsOnClose_not_recording (s : AppState) (h : s.isRecording = false) :
    wsOnClose s =
      { s with ws := s.ws.map (fun w : WS => { w with readyState := WS_CLOSED }),
               isConnecting := false, wsConnected := false,
               status := "Disconnected",
               statusLog := s.statusLog ++ ["Disconnected"],
               reconnectTimer := some (s.now + 3000),
               timersSet := s.timersSet + 1 } := by
  simp [wsOnClose, setStatus, h]

theorem wsOnClose_recording (s : AppState) (h : s.isRecording = true) :
    wsOnClose s =
      { s with ws := s.ws.map (fun w : WS => { w with readyState := WS_CLOSED }),
               isConnecting := false, wsConnected := false,
               isRecording := false,
               processor := none, audioCtx := none, stream := none,
               tracksStopped := s.tracksStopped + (if s.stream.isSome then 1 else 0),
               status := "Recording stopped",
               statusLog := s.statusLog ++ ["Disconnected", "Recording stopped"],
               reconnectTimer := some (s.now + 3000),
               timersSet := s.timersSet + 1 } := by
  cases hws : s.ws <;> cases hstream : s.stream <;>
    simp [wsOnClose, stopRecording, setStatus, wsIsOpen, h, hws, hstream,
      WS_CLOSED, WS_OPEN]

/-- C3: every close event clears the in-flight flag, marks the connection
closed, surfaces the disconnected status, forces an active capture session
to stop, cancels any pending reconnect timer and schedules exactly one
reconnect attempt 3000 ms out; the attempt cannot fire earlier, and
teardown before it fires prevents it. -/
theorem C3_onclose_reconnect (s : AppState) :
    (wsOnClose s).isConnecting = false ∧
    (wsOnClose s).wsConnected = false ∧
    (∀ w : WS, (wsOnClose s).ws = some w → w.readyState = WS_CLOSED) ∧
    (wsOnClose s).statusLog =
      s.statusLog ++ ["Disconnected"] ++
        (if s.isRecording then ["Recording stopped"] else []) ∧
    (wsOnClose s).isRecording = false ∧
    (wsOnClose s).reconnectTimer = some (s.now + 3000) ∧
    (wsOnClose s).timersSet = s.timersSet + 1 ∧
    (∀ (d : Nat) (ok : Bool), d < 3000 →
      fireReconnect ok (tick d (wsOnClose s)) = tick d (wsOnClose s)) ∧
    (cleanup (wsOnClose s)).reconnectTimer = none ∧
    (∀ (d : Nat) (ok : Bool),
      fireReconnect ok (tick d (cleanup (wsOnClose s))) =
        tick d (cleanup (wsOnClose s))) := by
  cases hrec : s.isRecording
  · rw [wsOnClose_not_recording s hrec]
    refine ⟨rfl, rfl, ?_, by simp [hrec], hrec, rfl, rfl, ?_, ?_, ?_⟩
    · intro w hw
      rcases Option.map_eq_some'.mp hw with ⟨v, hv, hfv⟩
      rw [← hfv]
    · intro d ok hd
      have hlt : ¬ (s.now + 3000 ≤ s.now + d) := by omega
      simp [fireReconnect, tick, hlt]
    · simp [cleanup, hrec]
    · intro d ok
      simp [cleanup, fireReconnect, tick, hrec]
  · rw [wsOnClose_recording s hrec]
    refine ⟨rfl, rfl, ?_, by simp [hrec], rfl, rfl, rfl, ?_, ?_, ?_⟩
    · intro w hw
      rcases Option.map_eq_some'.mp hw with ⟨v, hv, hfv⟩
      rw [← hfv]
    · intro d ok hd
      have hlt : ¬ (s.now + 3000 ≤ s.now + d) := by omega
      simp [fireReconnect, tick, hlt]
    · simp [cleanup]
    · intro d ok
      simp [cleanup, fireReconnect, tick]

/-- C3 witness: a close on the connected idle state schedules the timer at
3000 ms; the timer does not fire at 0 ms, and after teardown it never
fires; the closed socket is marked CLOSED. -/
theorem C3_onclose_reconnect_witness :
    (wsOnClose openIdle).reconnectTimer = some 3000 ∧
    fireReconnect true (tick 0 (wsOnClose openIdle)) = tick 0 (wsOnClose openIdle) ∧
    fireReconnect true (tick 5000 (cleanup (wsOnClose openIdle))) =
      tick 5000 (cleanup (wsOnClose openIdle)) ∧
    (WS.mk WS_CLOSED 0).readyState = WS_CLOSED :=
  ⟨(C3_onclose_reconnect openIdle).2.2.2.2.2.1,
   (C3_onclose_reconnect openIdle).2.2.2.2.2.2.2.1 0 true (by decide),
   (C3_onclose_reconnect openIdle).2.2.2.2.2.2.2.2.2 5000 true,
   (C3_onclose_reconnect openIdle).2.2.1 (WS.mk WS_CLOSED 0) (by decide)⟩

/-- C6: when the connection closes under an active capture session, the
session resources are released and no stop control message is sent. -/
theorem C6_forced_stop_no_message (s : AppState) (h : s.isRecording = true) :
    (wsOnClose s).isRecording = false ∧
    (wsOnClose s).stream = none ∧
    (wsOnClose s).processor = none ∧
    (wsOnClose s).audioCtx = none ∧
    (wsOnClose s).sent = s.sent := by
  rw [wsOnClose_recording s h]
  exact ⟨rfl, rfl, rfl, rfl, rfl⟩

/-- C6 witness: a close during an actively recording reachable state. -/
theorem C6_forced_stop_no_message_witness :
    recState.isRecording = true ∧
    (wsOnClose recState).isRecording = false ∧
    (wsOnClose recState).stream = none ∧
    (wsOnClose recState).sent = recState.sent :=
  ⟨by decide,
   (C6_forced_stop_no_message recState (by decide)).1,
   (C6_forced_stop_no_message recState (by decide)).2.1,
   (C6_forced_stop_no_message recState (by decide)).2.2.2.2⟩

/-- C7: the message handler dispatches on the type discriminant among
transcription, error and status; unknown or malformed messages leave the
state unchanged; the transcript list grows exactly on transcription
messages, appended in arrival order. -/
theorem C7_message_dispatch (m : ServerMsg) (ts : String) (s : AppState) :
    (∀ text, m = ServerMsg.transcription text →
      (wsOnMessage m ts s).transcriptions =
        s.transcriptions ++ [{ text := text, timestamp := ts }]) ∧
    ((∀ text, m ≠ ServerMsg.transcription text) →
      (wsOnMessage m ts s).transcriptions = s.transcriptions) ∧
    (m = ServerMsg.unknown ∨ m = ServerMsg.malformed → wsOnMessage m ts s = s) ∧
    (∀ msg, m = ServerMsg.error msg →
      (wsOnMessage m ts s).status = "Error: " ++ msg) ∧
    (∀ msg, m = ServerMsg.status msg →
      (wsOnMessage m ts s).status = msg) := by
  cases m with
  | transcription t =>
    refine ⟨?_, ?_, ?_, ?_, ?_⟩
    · intro text h; cases h; rfl
    · intro h; exact absurd rfl (h t)
    · rintro (h | h) <;> exact ServerMsg.noConfusion h
    · intro msg h; exact ServerMsg.noConfusion h
    · intro msg h; exact ServerMsg.noConfusion h
  | error m0 =>
    refine ⟨?_, ?_, ?_, ?_, ?_⟩
    · intro text h; exact ServerMsg.noConfusion h
    · intro _; rfl
    · rintro (h | h) <;> exact ServerMsg.noConfusion h
    · intro msg h; cases h; rfl
    · intro msg h; exact ServerMsg.noConfusion h
  | status m0 =>
    refine ⟨?_, ?_, ?_, ?_, ?_⟩
    · intro text h; exact ServerMsg.noConfusion h
    · intro _; rfl
    · rintro (h | h) <;> exact ServerMsg.noConfusion h
    · intro msg h; exact ServerMsg.noConfusion h
    · intro msg h; cases h; rfl
  | unknown =>
    refine ⟨?_, ?_, ?_, ?_, ?_⟩
    · intro text h; exact ServerMsg.noConfusion h
    · intro _; rfl
    · intro _; rfl
    · intro msg h; exact ServerMsg.noConfusion h
    · intro msg h; exact ServerMsg.noConfusion h
  | malformed =>
    refine ⟨?_, ?_, ?_, ?_, ?_⟩
    · intro text h; exact ServerMsg.noConfusion h
    · intro _; rfl
    · intro _; rfl
    · intro msg h; exact ServerMsg.noConfusion h
    · intro msg h; exact ServerMsg.noConfusion h

/-- C7 witness: a transcription message appends one entry; a malformed
payload leaves the state unchanged. -/
theorem C7_message_dispatch_witness :
    (wsOnMessage (ServerMsg.transcription "hello") "12:00:00" openIdle).transcriptions =
      openIdle.transcriptions ++ [{ text := "hello", timestamp := "12:00:00" }] ∧
    wsOnMessage ServerMsg.malformed "12:00:00" openIdle = openIdle ∧
    (wsOnMessage (ServerMsg.error "boom") "12:00:00" openIdle).status =
      "Error: " ++ "boom" :=
  ⟨(C7_message_dispatch (ServerMsg.transcription "hello") "12:00:00" openIdle).1
      "hello" rfl,
   (C7_message_dispatch ServerMsg.malformed "12:00:00" openIdle).2.2.1 (Or.inr rfl),
   (C7_message_dispatch (ServerMsg.error "boom") "12:00:00" openIdle).2.2.2.1
      "boom" rfl⟩

/-- C10: the in-flight guard is cleared on every terminal outcome of a
connect attempt (open, error, close, and synchronous constructor failure),
and after a close a subsequent connect is not blocked by a stale guard: it
creates a fresh connection object. -/
theorem C10_guard_cleared (s : AppState) :
    (wsOnOpen s).isConnecting = false ∧
    (wsOnError s).isConnecting = false ∧
    (wsOnClose s).isConnecting = false ∧
    (s.isConnecting = false → wsIsOpen s = false →
      (connectWebSocket false s).isConnecting = false) ∧
    (connectWebSocket true (wsOnClose s)).wsCreated = (wsOnClose s).wsCreated + 1 := by
  refine ⟨rfl, rfl, ?_, ?_, ?_⟩
  · cases hrec : s.isRecording
    · rw [wsOnClose_not_recording s hrec]
    · rw [wsOnClose_recording s hrec]
  · intro h1 h2
    simp [connectWebSocket, setStatus, h1, h2]
  · cases hrec : s.isRecording
    · rw [wsOnClose_not_recording s hrec]
      cases hws : s.ws <;>
        simp [connectWebSocket, wsIsOpen, hws, WS_CLOSED, WS_OPEN]
    · rw [wsOnClose_recording s hrec]
      cases hws : s.ws <;>
        simp [connectWebSocket, wsIsOpen, hws, WS_CLOSED, WS_OPEN]

/-- C10 witness: the guard clears on a synchronous constructor failure from
the initial state, and connecting after a close creates a new socket. -/
theorem C10_guard_cleared_witness :
    initState.isConnecting = false ∧ wsIsOpen initState = false ∧
    (connectWebSocket false initState).isConnecting = false ∧
    (connectWebSocket true (wsOnClose openIdle)).wsCreated =
      (wsOnClose openIdle).wsCreated + 1 :=
  ⟨by decide, by decide,
   (C10_guard_cleared initState).2.2.2.1 (by decide) (by decide),
   (C10_guard_cleared openIdle).2.2.2.2⟩

/-- C4 counterexample: in the reachable state with an open connection and
no active session, `stopRecording` is not a no-op — it sends a stop control
message over the socket and rewrites the status. -/
theorem C4_stop_counterexample :
    openIdle.isRecording = false ∧
    openIdle.sent = [] ∧
    (stopRecording openIdle).sent = [Msg.stop] ∧
    stopRecording openIdle ≠ openIdle := by
  refine ⟨by decide, by decide, by decide, ?_⟩
  intro h
  exact absurd (congrArg AppState.sent h) (by decide)

/-- C4 amended: when no capture session is active, `stop()` releases no
resources and leaves the session state unchanged (flags stay inactive,
handles stay empty, no track is stopped), but it is not a full no-op: it
sets the status to "Recording stopped" and, when the connection is open,
sends a stop control message. -/
theorem C4_stop_idle_amended (s : AppState)
    (_hrec : s.isRecording = false) (hstream : s.stream = none) :
    (stopRecording s).isRecording = false ∧
    (stopRecording s).stream = none ∧
    (stopRecording s).processor = none ∧
    (stopRecording s).audioCtx = none ∧
    (stopRecording s).tracksStopped = s.tracksStopped ∧
    (stopRecording s).transcriptions = s.transcriptions ∧
    (stopRecording s).ws = s.ws ∧
    (stopRecording s).wsCreated = s.wsCreated ∧
    (stopRecording s).micAcquisitions = s.micAcquisitions ∧
    (stopRecording s).status = "Recording stopped" ∧
    (stopRecording s).sent = (if wsIsOpen s then s.sent ++ [Msg.stop] else s.sent) := by
  cases hws : s.ws <;>
    simp [stopRecording, setStatus, wsIsOpen, hstream, hws] <;>
    split_ifs <;> simp

/-- C4 witness for the amended claim: the open-connection idle state. -/
theorem C4_stop_idle_amended_witness :
    openIdle.isRecording = false ∧
    openIdle.stream = none ∧
    (stopRecording openIdle).tracksStopped = openIdle.tracksStopped ∧
    (stopRecording openIdle).status = "Recording stopped" :=
  ⟨by decide, by decide,
   (C4_stop_idle_amended openIdle (by decide) (by decide)).2.2.2.2.1,
   (C4_stop_idle_amended openIdle (by decide) (by decide)).2.2.2.2.2.2.2.2.2.1⟩

/-- C8: in the upload variant, a recording whose blob is below the
1000-byte threshold is rejected client-side: no fetch is issued and the
designated too-short error is surfaced. -/
theorem C8_too_short_rejected (s : UploadState) (resp : FetchRes)
    (h : s.audioChunks.sum < 1000) :
    (uploadAudio resp s).fetchCalls = s.fetchCalls ∧
    (uploadAudio resp s).uStatus.type = "error" ∧
    (uploadAudio resp s).uStatus.message =
      "❌ Error: Recording too short or failed. Please speak for at least 2-3 seconds." := by
  refine ⟨?_, ?_, ?_⟩ <;> simp [uploadAudio, uploadError, h]

/-- C8 witness: a 700-byte recording is rejected without a network call
even though the server would have answered. -/
theorem C8_too_short_rejected_witness :
    shortUpload.audioChunks.sum < 1000 ∧
    (uploadAudio (FetchRes.json none (some "hi")) shortUpload).fetchCalls = 0 ∧
    (uploadAudio (FetchRes.json none (some "hi")) shortUpload).uStatus.type =
      "error" :=
  ⟨by decide,
   (C8_too_short_rejected shortUpload (FetchRes.json none (some "hi")) (by decide)).1,
   (C8_too_short_rejected shortUpload (FetchRes.json none (some "hi")) (by decide)).2.1⟩

end RealTime
